import Mathlib

/-!
Shallow embedding of the landmark-to-metric geometry engine of
src/horizon-mediapipe-py/golden.py (the FaceAnalyzer class and the
analyze_face_ratios entry point), together with theorems settling the
frozen claims about it.

Conventions of the embedding:
* Python floats are modelled by the real numbers.
* A Python value that may be None is modelled by an Option.
* Python dicts built by the analyzers are modelled by association lists
  in insertion order (all keys inserted by the source are distinct).
* numpy arithmetic never raises in the code paths modelled here; numpy
  division of a nonzero value by zero yields inf/nan without raising, and
  the only places where a zero denominator can reach a division are noted
  at their definitions (Lean division by zero yields 0 there).
* A Python `try ... except` whose body can only fail by an out-of-range
  index is modelled by an explicit bounds check (List.get? returning none).
-/

noncomputable section

namespace Golden

/-- Golden ratio constant (PHI in the source). -/
def PHI : ℝ := 1.61803398875

/-- Epsilon threshold used throughout (self.eps and the safe_ratio default). -/
def eps : ℝ := 1e-8

/-- A 3D point (one row of the numpy points array). -/
structure Pt3 where
  x : ℝ
  y : ℝ
  z : ℝ

/-- A raw input landmark: coordinates plus the optional confidence fields;
an absent dict key is modelled by none (the source reads them with
lm.get, defaulting to 1.0). -/
structure Landmark where
  x : ℝ
  y : ℝ
  z : ℝ
  visibility : Option ℝ
  presence : Option ℝ

/-- A blendshape record: category_name and score, both read with .get in the
source, hence optional. -/
structure Blendshape where
  category_name : Option String
  score : Option ℝ

/-- Named landmark index table. -/
abbrev IndexMap : Type := List (String × Nat)

/-- The compiled-in FALLBACK_INDICES table of the source. -/
def FALLBACK_INDICES : IndexMap :=
  [("chin_tip", 152), ("nose_tip", 4), ("subnasale", 2),
   ("L_eye_outer", 33), ("L_eye_inner", 133), ("R_eye_inner", 362),
   ("R_eye_outer", 263), ("L_brow_inner", 70), ("R_brow_inner", 336),
   ("L_brow_outer", 105), ("R_brow_outer", 334), ("alare_L", 234),
   ("alare_R", 454), ("labiale_superius", 13), ("labiale_inferius", 14),
   ("stomion", 0), ("cheilion_L", 61), ("cheilion_R", 291),
   ("L_pupil", 468), ("R_pupil", 473), ("gonion_L", 172),
   ("gonion_R", 397), ("menton", 175), ("trichion", 10), ("nasion", 6),
   ("L_ear_top", 93), ("R_ear_top", 323), ("L_cheek", 205), ("R_cheek", 425)]

/-- Embeds dict.get(k). -/
def lookupIdx (m : IndexMap) (k : String) : Option Nat :=
  List.lookup k m

/-- Embeds dict.get(k, d). -/
def lookupD (m : IndexMap) (k : String) (d : Nat) : Nat :=
  (lookupIdx m k).getD d

/-- Euclidean distance between two points; mode "2D" uses only x,y
(the dist function of the source; every call site passes the mode). -/
def dist (p1 p2 : Pt3) (mode : String) : ℝ :=
  if mode = "2D" then Real.sqrt ((p1.x - p2.x) ^ 2 + (p1.y - p2.y) ^ 2)
  else Real.sqrt ((p1.x - p2.x) ^ 2 + (p1.y - p2.y) ^ 2 + (p1.z - p2.z) ^ 2)

/-- Safe division with epsilon threshold (safe_ratio; every call site uses
the default eps = 1e-8). -/
def safe_ratio (num denom : ℝ) : Option ℝ :=
  if |denom| < eps then none else some (num / denom)

/-- Embeds np.arctan2 y x, which agrees with the complex argument of x + y i
(range (-pi, pi], arctan2 0 0 = 0). -/
def atan2 (y x : ℝ) : ℝ := Complex.arg ⟨x, y⟩

/-- Embeds np.degrees. -/
def npDegrees (x : ℝ) : ℝ := x * (180 / Real.pi)

/-- Embeds np.clip x lo hi. -/
def clip (x lo hi : ℝ) : ℝ := max lo (min x hi)

/-- Componentwise difference of two points (numpy vector subtraction). -/
def sub3 (p q : Pt3) : Pt3 := ⟨p.x - q.x, p.y - q.y, p.z - q.z⟩

/-- Spatial dot product. -/
def dot3 (v w : Pt3) : ℝ := v.x * w.x + v.y * w.y + v.z * w.z

/-- Spatial Euclidean norm. -/
def norm3 (v : Pt3) : ℝ := Real.sqrt (v.x ^ 2 + v.y ^ 2 + v.z ^ 2)

/-- Embeds angle_deg of the source: angle at vertex between p1-vertex-p2, in
degrees, via the clamped arccosine of the normalized dot product. -/
def angle_deg (p1 vertex p2 : Pt3) : ℝ :=
  let v1 := sub3 p1 vertex
  let v2 := sub3 p2 vertex
  npDegrees (Real.arccos (clip (dot3 v1 v2 / (norm3 v1 * norm3 v2 + eps)) (-1) 1))

/-- Embeds polyfit_curvature of the source specialised to its only call site:
three sample points and degree 2, i.e. the exact quadratic fit; the result
is |2 * leading coefficient| (via divided differences). Duplicate
abscissae, where np.polyfit is rank-deficient, are modelled by the
0.0 fallback of the source's exception guard. -/
def polyfit_curvature3 (p0 p1 p2 : ℝ × ℝ) : ℝ :=
  if p0.1 = p1.1 ∨ p1.1 = p2.1 ∨ p0.1 = p2.1 then 0
  else
    let s01 := (p1.2 - p0.2) / (p1.1 - p0.1)
    let s12 := (p2.2 - p1.2) / (p2.1 - p1.1)
    |2 * ((s12 - s01) / (p2.1 - p0.1))|

/-- np.mean of a list (only applied to nonempty lists in the source). -/
def npMean (l : List ℝ) : ℝ := l.sum / l.length

/-- np.std of a list (population standard deviation, ddof = 0). -/
def npStd (l : List ℝ) : ℝ :=
  Real.sqrt (npMean (l.map fun x => (x - npMean l) ^ 2))

/-- The standardized metric dictionary of create_metric. A None value is
representable (value is an Option) because one call site can pass one. -/
structure MetricValue where
  value : Option ℝ
  method : String
  source_points : List String
  valid : Bool
  confidence : ℝ

/-- Embeds create_metric of the source; the source's defaults valid=True and
confidence=1.0 are passed explicitly at every call site of the embedding. -/
def create_metric (value : Option ℝ) (method : String) (source_points : List String)
    (valid : Bool) (confidence : ℝ) : MetricValue :=
  ⟨value, method, source_points, valid, confidence⟩

/-- A region metric mapping: keys to MetricValue in insertion order. -/
abbrev Metrics : Type := List (String × MetricValue)

/-- Lookup in a region metric mapping. -/
def mlookup (l : Metrics) (k : String) : Option MetricValue :=
  List.lookup k l

/-- The symmetry analyzer output: an optional midline score metric plus the
always-present bilateral_feature_deltas mapping of plain floats. -/
structure SymmetryOut where
  midline_symmetry_score : Option MetricValue
  bilateral_feature_deltas : List (String × ℝ)

/-- The golden diagnostics output: phi_deviations mapping (always present)
plus the two optional evenness metrics. -/
structure GoldenOut where
  phi_deviations : Metrics
  thirds_evenness : Option MetricValue
  fifths_evenness : Option MetricValue

/-- The blendshape summary dict of analyze_blendshapes (present only when
the blendshape list is nonempty). -/
structure BlendshapeSummary where
  total_blendshapes : Nat
  active_blendshapes : List (String × ℝ)

/-- The pose estimation dict: each angle present only when its inputs are. -/
structure PoseOut where
  roll_deg : Option ℝ
  yaw_deg : Option ℝ
  pitch_deg : Option ℝ

/-- The normalization metadata block of the result. -/
structure Normalization where
  scale_basis : ℝ
  fallback_indices_used : Bool
  visibility_threshold : ℝ

/-- The complete analysis result: the fixed top-level keys of the dict
assembled by FaceAnalyzer.analyze (the source key "structure" is spelled
structure_metrics because structure is a Lean keyword). -/
structure AnalysisResult where
  normalization : Normalization
  pose_estimation : PoseOut
  eyes : Metrics
  nose : Metrics
  mouth : Metrics
  structure_metrics : Metrics
  symmetry : SymmetryOut
  profile : Metrics
  golden_diagnostics : GoldenOut
  blendshape_summary : Option BlendshapeSummary

/-- The two shapes analyze_face_ratios can return: a complete result, or
the error envelope built in its except branch. -/
inductive EngineOutput where
  | result (r : AnalysisResult)
  | failure (error : String) (traceback : String) (status : String)

/-- The analyzer state after __init__: rotated points, the chosen
confidence array, the resolved index map, and the derived scale basis. -/
structure FaceAnalyzer where
  points : List Pt3
  visibility : List ℝ
  index_map : IndexMap
  fallback_indices_used : Bool
  visibility_threshold : ℝ
  scale_basis : ℝ
  blendshapes : List Blendshape

/-- Rotation applied per point by _apply_roll_correction: the matrix with
entries cos(-theta), sin(-theta) applied to (x, y), z untouched
(np.dot(points, rot_matrix.T) applies the matrix to each row). -/
def rollRotate (theta : ℝ) (p : Pt3) : Pt3 :=
  ⟨Real.cos (-theta) * p.x - Real.sin (-theta) * p.y,
   Real.sin (-theta) * p.x + Real.cos (-theta) * p.y,
   p.z⟩

/-- Embeds _apply_roll_correction: read both outer-eye points (indices from the
map with the source's literal defaults 33 and 263); if either index is out
of range the except branch keeps the points unchanged; otherwise rotate
every point by minus the eye-line angle. -/
def applyRollCorrection (m : IndexMap) (pts : List Pt3) : List Pt3 :=
  match pts.get? (lookupD m "L_eye_outer" 33), pts.get? (lookupD m "R_eye_outer" 263) with
  | some left_eye, some right_eye =>
    let roll_angle := atan2 (right_eye.y - left_eye.y) (right_eye.x - left_eye.x)
    pts.map (rollRotate roll_angle)
  | _, _ => pts

/-- The cheek-width fallback inside _compute_scale_basis. -/
def cheekFallback (m : IndexMap) (pts : List Pt3) : ℝ :=
  match pts.get? (lookupD m "L_cheek" 205), pts.get? (lookupD m "R_cheek" 425) with
  | some left_cheek, some right_cheek =>
    let face_width := dist left_cheek right_cheek "2D"
    if face_width > eps then face_width else 1
  | _, _ => 1

/-- Embeds _compute_scale_basis: outer-eye 2D width if in range and above eps,
else the cheek fallback (an out-of-range index raises inside the try and
falls through). -/
def computeScaleBasis (m : IndexMap) (pts : List Pt3) : ℝ :=
  match pts.get? (lookupD m "L_eye_outer" 33), pts.get? (lookupD m "R_eye_outer" 263) with
  | some left_outer, some right_outer =>
    let eye_width := dist left_outer right_outer "2D"
    if eye_width > eps then eye_width else cheekFallback m pts
  | _, _ => cheekFallback m pts

/-- Embeds index_map or FALLBACK_INDICES: Python or replaces both None and an
empty (falsy) dict by the fallback table. -/
def resolveIndexMap (im : Option IndexMap) : IndexMap :=
  match im with
  | none => FALLBACK_INDICES
  | some m => if m = ([] : IndexMap) then FALLBACK_INDICES else m

/-- Embeds FaceAnalyzer.__init__: extract coordinates, choose visibility or (when
every visibility is exactly 0.0) presence as the confidence array, apply
the roll correction and derive the scale basis. -/
def mkFaceAnalyzer (landmarks : List Landmark) (blendshapes : Option (List Blendshape))
    (index_map : Option IndexMap) : FaceAnalyzer :=
  let im := resolveIndexMap index_map
  let points0 := landmarks.map fun lm => Pt3.mk lm.x lm.y lm.z
  let visibility_values := landmarks.map fun lm => lm.visibility.getD 1
  let visibility :=
    if ∀ v ∈ visibility_values, v = (0 : ℝ) then
      landmarks.map fun lm => lm.presence.getD 1
    else visibility_values
  let points := applyRollCorrection im points0
  { points := points
    visibility := visibility
    index_map := im
    fallback_indices_used := index_map.isNone
    visibility_threshold := 0.3
    scale_basis := computeScaleBasis im points
    blendshapes := blendshapes.getD [] }

/-- Embeds _get_point: resolve the name (no default here), bounds-check the index,
and apply the confidence threshold unless every stored confidence is 0. -/
def getPoint (st : FaceAnalyzer) (name : String) : Option Pt3 :=
  match lookupIdx st.index_map name with
  | none => none
  | some idx =>
    if idx < st.points.length then
      if (¬ ∀ v ∈ st.visibility, v = (0 : ℝ)) ∧
          st.visibility.getD idx 0 < st.visibility_threshold then none
      else st.points.get? idx
    else none

/-- Embeds _compute_glabella: midpoint of the inner brows if both are available. -/
def computeGlabella (st : FaceAnalyzer) : Option Pt3 :=
  match getPoint st "L_brow_inner", getPoint st "R_brow_inner" with
  | some left_brow, some right_brow =>
    some ⟨(left_brow.x + right_brow.x) / 2, (left_brow.y + right_brow.y) / 2,
          (left_brow.z + right_brow.z) / 2⟩
  | _, _ => none

/-- Per-side fissure length and canthal tilt of analyze_eyes (the source's
L and R branches compute the same formula). -/
def eyeSideMetrics (st : FaceAnalyzer) (side : String) : Metrics :=
  match getPoint st (side ++ "_eye_outer"), getPoint st (side ++ "_eye_inner") with
  | some outer, some inner =>
    [("fissure_length_" ++ side,
      create_metric (some (dist outer inner "2D" / st.scale_basis)) "2D"
        [side ++ "_eye_outer", side ++ "_eye_inner"] true 1),
     ("canthal_tilt_deg_" ++ side,
      create_metric (some (npDegrees (atan2 (outer.y - inner.y) |outer.x - inner.x|))) "2D"
        [side ++ "_eye_outer", side ++ "_eye_inner"] true 1)]
  | _, _ => []

/-- The intercanthal-over-eye-width metric of analyze_eyes. -/
def intercanthalMetric (st : FaceAnalyzer) : Metrics :=
  match getPoint st "L_eye_inner", getPoint st "R_eye_inner",
        getPoint st "L_eye_outer", getPoint st "R_eye_outer" with
  | some left_inner, some right_inner, some left_outer, some right_outer =>
    match safe_ratio (dist left_inner right_inner "2D") (dist left_outer right_outer "2D") with
    | some ipd_ratio =>
      [("intercanthal_over_eye_width",
        create_metric (some ipd_ratio) "2D"
          ["L_eye_inner", "R_eye_inner", "L_eye_outer", "R_eye_outer"] true 1)]
    | none => []
  | _, _, _, _ => []

/-- Per-side brow height and slope of analyze_eyes. -/
def browSideMetrics (st : FaceAnalyzer) (side : String) : Metrics :=
  match getPoint st (side ++ "_brow_inner"), getPoint st (side ++ "_brow_outer"),
        getPoint st (side ++ "_eye_inner") with
  | some brow_inner, some brow_outer, some eye_center =>
    [("brow_height_" ++ side,
      create_metric (some (|brow_inner.y - eye_center.y| / st.scale_basis)) "2D"
        [side ++ "_brow_inner", side ++ "_eye_inner"] true 1),
     ("brow_slope_" ++ side,
      create_metric (some ((brow_outer.y - brow_inner.y) / (|brow_outer.x - brow_inner.x| + eps)))
        "2D" [side ++ "_brow_inner", side ++ "_brow_outer"] true 1)]
  | _, _, _ => []

/-- Embeds analyze_eyes, in the source's insertion order. -/
def analyzeEyes (st : FaceAnalyzer) : Metrics :=
  eyeSideMetrics st "L" ++ eyeSideMetrics st "R" ++ intercanthalMetric st ++
    browSideMetrics st "L" ++ browSideMetrics st "R"

/-- The alar width block of analyze_nose. The preferred ratio passes the
safe_ratio result to create_metric directly (no None guard at this site). -/
def alarBlock (st : FaceAnalyzer) : Metrics :=
  match getPoint st "alare_L", getPoint st "alare_R" with
  | some alare_l, some alare_r =>
    let alar_width := dist alare_l alare_r "2D"
    match getPoint st "L_eye_inner", getPoint st "R_eye_inner" with
    | some left_eye_inner, some right_eye_inner =>
      [("alar_width_over_inter_eye",
        create_metric (safe_ratio alar_width (dist left_eye_inner right_eye_inner "2D")) "2D"
          ["alare_L", "alare_R", "L_eye_inner", "R_eye_inner"] true 1)]
    | _, _ =>
      [("alar_width_normalized",
        create_metric (some (alar_width / st.scale_basis)) "2D" ["alare_L", "alare_R"] true 1)]
  | _, _ => []

/-- The nasal length block of analyze_nose. -/
def nasalLengthBlock (st : FaceAnalyzer) : Metrics :=
  match getPoint st "nasion", getPoint st "subnasale" with
  | some nasion, some subnasale =>
    match getPoint st "chin_tip" with
    | some chin_tip =>
      match safe_ratio (dist nasion subnasale "2D") (dist nasion chin_tip "2D") with
      | some ratio =>
        [("nasal_length_over_face_height",
          create_metric (some ratio) "2D" ["nasion", "subnasale", "chin_tip"] true 1)]
      | none => []
    | none => []
  | _, _ => []

/-- The 3D tip projection block of analyze_nose. -/
def tipProjectionBlock (st : FaceAnalyzer) : Metrics :=
  match getPoint st "nose_tip", getPoint st "subnasale" with
  | some nose_tip, some subnasale =>
    [("tip_projection_3D_over_IPD",
      create_metric (some (|nose_tip.z - subnasale.z| / st.scale_basis)) "3D"
        ["nose_tip", "subnasale"] true 1)]
  | _, _ => []

/-- The nasolabial angle block of analyze_nose (vertex at the subnasale). -/
def nasolabialBlock (st : FaceAnalyzer) : Metrics :=
  match getPoint st "nose_tip", getPoint st "subnasale", getPoint st "labiale_superius" with
  | some nose_tip, some subnasale, some upper_lip =>
    [("nasal_tip_to_upper_lip_angle_deg",
      create_metric (some (angle_deg nose_tip subnasale upper_lip)) "2D"
        ["nose_tip", "subnasale", "labiale_superius"] true 1)]
  | _, _, _ => []

/-- Embeds analyze_nose, in the source's insertion order. -/
def analyzeNose (st : FaceAnalyzer) : Metrics :=
  alarBlock st ++ nasalLengthBlock st ++ tipProjectionBlock st ++ nasolabialBlock st

/-- The mouth width and smile arc block of analyze_mouth. -/
def mouthWidthBlock (st : FaceAnalyzer) : Metrics :=
  match getPoint st "cheilion_L", getPoint st "cheilion_R" with
  | some left_corner, some right_corner =>
    let mouth_width := dist left_corner right_corner "2D"
    [("mouth_width_over_IPD",
      create_metric (some (mouth_width / st.scale_basis)) "2D"
        ["cheilion_L", "cheilion_R"] true 1)] ++
    (match getPoint st "stomion" with
     | some stomion =>
       [("smile_arc_curvature",
         create_metric
           (some (polyfit_curvature3 (left_corner.x, left_corner.y)
             (stomion.x, stomion.y) (right_corner.x, right_corner.y))) "2D"
           ["cheilion_L", "stomion", "cheilion_R"] true 1)]
     | none => [])
  | _, _ => []

/-- The lip thickness ratio block of analyze_mouth. -/
def lipRatioBlock (st : FaceAnalyzer) : Metrics :=
  match getPoint st "labiale_superius", getPoint st "labiale_inferius", getPoint st "stomion" with
  | some upper_lip, some lower_lip, some stomion =>
    match safe_ratio (dist upper_lip stomion "2D") (dist stomion lower_lip "2D") with
    | some ratio =>
      [("upper_to_lower_lip_ratio",
        create_metric (some ratio) "2D" ["labiale_superius", "stomion", "labiale_inferius"] true 1)]
    | none => []
  | _, _, _ => []

/-- The cupid's bow block of analyze_mouth. -/
def cupidBowBlock (st : FaceAnalyzer) : Metrics :=
  match getPoint st "labiale_superius", getPoint st "stomion" with
  | some upper_lip, some stomion =>
    [("cupid_bow_depth",
      create_metric (some (|upper_lip.y - stomion.y| / st.scale_basis)) "2D"
        ["labiale_superius", "stomion"] true 1)]
  | _, _ => []

/-- Embeds analyze_mouth, in the source's insertion order. -/
def analyzeMouth (st : FaceAnalyzer) : Metrics :=
  mouthWidthBlock st ++ lipRatioBlock st ++ cupidBowBlock st

/-- The facial thirds block of analyze_structure: both ratio metrics are
inserted together under the same middle-third guard, with the safe_ratio
result passed to create_metric directly (under the guard it is some). -/
def thirdsBlock (st : FaceAnalyzer) : Metrics :=
  match computeGlabella st, getPoint st "subnasale", getPoint st "chin_tip" with
  | some glabella, some subnasale, some chin_tip =>
    let upper_third := match getPoint st "nasion" with
      | some nasion => dist glabella nasion "2D"
      | none => 0
    let middle_third := match getPoint st "nasion" with
      | some nasion => dist nasion subnasale "2D"
      | none => 0
    let lower_third := dist subnasale chin_tip "2D"
    if middle_third > eps then
      [("upper_to_middle_third",
        create_metric (safe_ratio upper_third middle_third) "2D"
          ["glabella", "nasion", "subnasale"] true 1),
       ("lower_to_middle_third",
        create_metric (safe_ratio lower_third middle_third) "2D"
          ["subnasale", "chin_tip", "nasion"] true 1)]
    else []
  | _, _, _ => []

/-- The face height over width block of analyze_structure. -/
def faceHWBlock (st : FaceAnalyzer) : Metrics :=
  match getPoint st "chin_tip", getPoint st "nasion" with
  | some chin_tip, some nasion =>
    match getPoint st "L_cheek", getPoint st "R_cheek" with
    | some left_cheek, some right_cheek =>
      match safe_ratio (dist nasion chin_tip "2D") (dist left_cheek right_cheek "2D") with
      | some ratio =>
        [("face_height_over_width",
          create_metric (some ratio) "2D" ["nasion", "chin_tip", "L_cheek", "R_cheek"] true 1)]
      | none => []
    | _, _ => []
  | _, _ => []

/-- The jaw block of analyze_structure. -/
def jawBlock (st : FaceAnalyzer) : Metrics :=
  match getPoint st "gonion_L", getPoint st "gonion_R" with
  | some gonion_l, some gonion_r =>
    [("gonial_width_normalized",
      create_metric (some (dist gonion_l gonion_r "2D" / st.scale_basis)) "2D"
        ["gonion_L", "gonion_R"] true 1)] ++
    (match getPoint st "menton" with
     | some menton =>
       [("mandibular_angle_deg",
         create_metric (some (angle_deg gonion_l menton gonion_r)) "2D"
           ["gonion_L", "menton", "gonion_R"] true 1)]
     | none => [])
  | _, _ => []

/-- The 3D chin prominence block of analyze_structure. -/
def chinBlock (st : FaceAnalyzer) : Metrics :=
  match getPoint st "chin_tip", getPoint st "subnasale" with
  | some chin_tip, some subnasale =>
    [("chin_prominence_3D",
      create_metric (some (|chin_tip.z - subnasale.z| / st.scale_basis)) "3D"
        ["chin_tip", "subnasale"] true 1)]
  | _, _ => []

/-- Embeds analyze_structure, in the source's insertion order. -/
def analyzeStructure (st : FaceAnalyzer) : Metrics :=
  thirdsBlock st ++ faceHWBlock st ++ jawBlock st ++ chinBlock st

/-- The fixed bilateral pair list of analyze_symmetry. -/
def symmetryPairs : List (String × String) :=
  [("L_eye_outer", "R_eye_outer"), ("L_eye_inner", "R_eye_inner"),
   ("L_brow_inner", "R_brow_inner"), ("L_brow_outer", "R_brow_outer"),
   ("alare_L", "alare_R"), ("cheilion_L", "cheilion_R"), ("gonion_L", "gonion_R")]

/-- Per-pair data of analyze_symmetry: the midline deviation and the named
bilateral delta, for each pair with both points available. -/
def pairData (st : FaceAnalyzer) : List (ℝ × (String × ℝ)) :=
  symmetryPairs.filterMap fun pr =>
    match getPoint st pr.1, getPoint st pr.2 with
    | some left_pt, some right_pt =>
      some (|(left_pt.x + right_pt.x) / 2 - 0.5| / st.scale_basis,
            (pr.1 ++ "_vs_" ++ pr.2,
             |(|left_pt.x|) - (|right_pt.x|)| / st.scale_basis))
    | _, _ => none

/-- Embeds analyze_symmetry: averaged clamped midline score (only when at least
one pair was available) plus the always-present bilateral deltas. -/
def analyzeSymmetry (st : FaceAnalyzer) : SymmetryOut :=
  let data := pairData st
  { midline_symmetry_score :=
      match data.map Prod.fst with
      | [] => none
      | devs =>
        some (create_metric (some (max 0 (min 1 (1 - npMean devs / 5)))) "2D"
          (symmetryPairs.map Prod.fst ++ symmetryPairs.map Prod.snd) true 1)
    bilateral_feature_deltas := data.map Prod.snd }

/-- The E-line and projection-ratio block of analyze_profile. -/
def eLineBlock (st : FaceAnalyzer) : Metrics :=
  match getPoint st "nose_tip", getPoint st "chin_tip" with
  | some nose_tip, some chin_tip =>
    (match getPoint st "labiale_superius" with
     | some upper_lip =>
       [("e_line_upper_lip",
         create_metric (some (|upper_lip.z - (nose_tip.z + chin_tip.z) / 2| / st.scale_basis))
           "3D" ["nose_tip", "chin_tip", "labiale_superius"] true 1)]
     | none => []) ++
    (match getPoint st "labiale_inferius" with
     | some lower_lip =>
       [("e_line_lower_lip",
         create_metric (some (|lower_lip.z - (nose_tip.z + chin_tip.z) / 2| / st.scale_basis))
           "3D" ["nose_tip", "chin_tip", "labiale_inferius"] true 1)]
     | none => []) ++
    (match safe_ratio |nose_tip.z| |chin_tip.z| with
     | some ratio =>
       [("tip_projection_over_chin_projection",
         create_metric (some ratio) "3D" ["nose_tip", "chin_tip"] true 1)]
     | none => [])
  | _, _ => []

/-- The midface depth block of analyze_profile. -/
def midfaceBlock (st : FaceAnalyzer) : Metrics :=
  match getPoint st "L_cheek", getPoint st "R_cheek" with
  | some left_cheek, some right_cheek =>
    match safe_ratio ((|left_cheek.z| + |right_cheek.z|) / 2) (dist left_cheek right_cheek "2D") with
    | some ratio =>
      [("midface_depth_over_face_width",
        create_metric (some ratio) "3D" ["L_cheek", "R_cheek"] true 1)]
    | none => []
  | _, _ => []

/-- Embeds analyze_profile, in the source's insertion order. -/
def analyzeProfile (st : FaceAnalyzer) : Metrics :=
  eLineBlock st ++ midfaceBlock st

/-- The ratios_to_check list of analyze_golden_diagnostics. -/
def ratiosToCheck (st : FaceAnalyzer) : List (String × ℝ) :=
  (match getPoint st "L_eye_outer", getPoint st "R_eye_outer",
         getPoint st "cheilion_L", getPoint st "cheilion_R" with
   | some left_eye_outer, some right_eye_outer, some left_mouth, some right_mouth =>
     match safe_ratio (dist left_eye_outer right_eye_outer "2D")
         (dist left_mouth right_mouth "2D") with
     | some ratio => [("eye_to_mouth_width", ratio)]
     | none => []
   | _, _, _, _ => []) ++
  (match getPoint st "chin_tip", getPoint st "nasion",
         getPoint st "L_cheek", getPoint st "R_cheek" with
   | some chin_tip, some nasion, some left_cheek, some right_cheek =>
     match safe_ratio (dist nasion chin_tip "2D") (dist left_cheek right_cheek "2D") with
     | some ratio => [("face_height_to_width", ratio)]
     | none => []
   | _, _, _, _ => []) ++
  (match getPoint st "subnasale", getPoint st "stomion", getPoint st "chin_tip" with
   | some subnasale, some stomion, some chin_tip =>
     match safe_ratio (dist subnasale stomion "2D") (dist stomion chin_tip "2D") with
     | some ratio => [("nose_mouth_to_mouth_chin", ratio)]
     | none => []
   | _, _, _ => [])

/-- The thirds_ratios list of analyze_golden_diagnostics: the stored value
field (an Option, read with .get whose default never applies since the key
is always present) of whichever thirds metrics exist in the structure
mapping computed earlier in the same pass. -/
def thirdsRatios (structureOut : Metrics) : List (Option ℝ) :=
  ((mlookup structureOut "upper_to_middle_third").map MetricValue.value).toList ++
  ((mlookup structureOut "lower_to_middle_third").map MetricValue.value).toList

/-- Embeds analyze_golden_diagnostics. A None among the thirds ratios would raise
in np.std in the source and reach the failure envelope; it is unreachable
because analyze_structure only emits thirds metrics with a real value
(their shared guard makes safe_ratio succeed), and is modelled by a none
value. -/
def analyzeGoldenDiagnostics (st : FaceAnalyzer) (structureOut : Metrics) : GoldenOut :=
  { phi_deviations :=
      (ratiosToCheck st).map fun nr =>
        (nr.1 ++ "_phi_deviation",
         create_metric (some (|nr.2 - PHI| / PHI)) "2D" [] true 0.8)
    thirds_evenness :=
      match thirdsRatios structureOut with
      | [] => none
      | l =>
        some (create_metric ((l.mapM id).map fun rs => 1 - npStd rs) "2D" [] true 0.7)
    fifths_evenness :=
      match getPoint st "L_eye_outer", getPoint st "L_eye_inner",
            getPoint st "R_eye_inner", getPoint st "R_eye_outer" with
      | some left_outer, some left_inner, some right_inner, some right_outer =>
        let total_width := dist left_outer right_outer "2D"
        let ideal_fifth := total_width / 5
        let fifths := [dist left_outer left_inner "2D", dist left_inner right_inner "2D",
                       dist right_inner right_outer "2D"]
        some (create_metric
          (some (1 - npMean (fifths.map fun f => |f - ideal_fifth| / ideal_fifth))) "2D"
          ["L_eye_outer", "L_eye_inner", "R_eye_inner", "R_eye_outer"] true 1)
      | _, _, _, _ => none }

/-- Embeds analyze_blendshapes: the empty dict for an empty list, else the summary. -/
def analyzeBlendshapes (bs : List Blendshape) : Option BlendshapeSummary :=
  match bs with
  | [] => none
  | _ :: _ =>
    some { total_blendshapes := bs.length
           active_blendshapes :=
             (bs.filter fun b => b.score.getD 0 > 0.1).map fun b =>
               (b.category_name.getD "unknown", b.score.getD 0) }

/-- Embeds _estimate_pose: each angle present only when its source points are. -/
def estimatePose (st : FaceAnalyzer) : PoseOut :=
  { roll_deg :=
      match getPoint st "L_ear_top", getPoint st "R_ear_top" with
      | some left_ear, some right_ear =>
        some (npDegrees (atan2 (right_ear.y - left_ear.y) (right_ear.x - left_ear.x)))
      | _, _ => none
    yaw_deg :=
      match getPoint st "nose_tip" with
      | some nose_tip => some (npDegrees (Real.arcsin (clip (nose_tip.x * 2) (-1) 1)))
      | none => none
    pitch_deg :=
      match getPoint st "nose_tip", getPoint st "chin_tip" with
      | some nose_tip, some chin_tip =>
        some (npDegrees (atan2 (chin_tip.y - nose_tip.y) (|chin_tip.z - nose_tip.z| + eps)))
      | _, _ => none }

/-- Embeds FaceAnalyzer.analyze: run every region analyzer (golden diagnostics
reads the structure mapping of the same pass) and assemble the result dict
with its fixed top-level keys. -/
def FaceAnalyzer.analyze (st : FaceAnalyzer) : AnalysisResult :=
  let structureOut := analyzeStructure st
  { normalization :=
      { scale_basis := st.scale_basis
        fallback_indices_used := st.fallback_indices_used
        visibility_threshold := st.visibility_threshold }
    pose_estimation := estimatePose st
    eyes := analyzeEyes st
    nose := analyzeNose st
    mouth := analyzeMouth st
    structure_metrics := structureOut
    symmetry := analyzeSymmetry st
    profile := analyzeProfile st
    golden_diagnostics := analyzeGoldenDiagnostics st structureOut
    blendshape_summary := analyzeBlendshapes st.blendshapes }

/-- Embeds analyze_face_ratios: the try body. With inputs of the Landmark type the
body is total (every index access, ratio and list operation is locally
guarded, see the definitions above), so the except branch that builds the
failure envelope is never taken; it remains as the second constructor of
EngineOutput. -/
def analyze_face_ratios (landmarks : List Landmark) (blendshapes : Option (List Blendshape))
    (index_map : Option IndexMap) : EngineOutput :=
  EngineOutput.result (mkFaceAnalyzer landmarks blendshapes index_map).analyze

/-! Definitions written from the wording of individual claims, to be
compared against the definitions above that embed the source. -/

/-- The 2D outer-eye (outer-to-outer) distance, when both points are
available (claim C4 wording). -/
def outerEyeDist (m : IndexMap) (pts : List Pt3) : Option ℝ :=
  match pts.get? (lookupD m "L_eye_outer" 33), pts.get? (lookupD m "R_eye_outer" 263) with
  | some a, some b => some (dist a b "2D")
  | _, _ => none

/-- The 2D cheek-to-cheek distance, when both points are available (claim
C4 wording). -/
def cheekToCheekDist (m : IndexMap) (pts : List Pt3) : Option ℝ :=
  match pts.get? (lookupD m "L_cheek" 205), pts.get? (lookupD m "R_cheek" 425) with
  | some a, some b => some (dist a b "2D")
  | _, _ => none

/-- Claim C4's description of the scale basis: the outer-eye distance when
that exceeds 1e-8; otherwise the cheek-to-cheek distance when that exceeds
1e-8; otherwise exactly 1. -/
def scaleBasisSpec (m : IndexMap) (pts : List Pt3) : ℝ :=
  (((outerEyeDist m pts).filter fun w => w > (1e-8 : ℝ)).orElse
    fun _ => (cheekToCheekDist m pts).filter fun w => w > (1e-8 : ℝ)).getD 1

/-- Claim C6's wording: the standard deviation of two ratios. -/
def stddev2 (a b : ℝ) : ℝ :=
  Real.sqrt (((a - (a + b) / 2) ^ 2 + (b - (a + b) / 2) ^ 2) / 2)

/-- Claim C3's substitution: each landmark's visibility replaced by its
presence value (read as the source reads it, defaulting to 1.0). -/
def substPresence (lm : Landmark) : Landmark :=
  { lm with visibility := some (lm.presence.getD 1) }

/-! Theorems settling the claims. -/

/-- Claim C1: for every landmark input, with optional blendshapes and
optional custom index map, analyze_face_ratios returns exactly one of two
shapes: a complete AnalysisResult carrying all fixed top-level keys
(normalization, pose_estimation, eyes, nose, mouth, structure, symmetry,
profile, golden_diagnostics, blendshape_summary — the fields of
AnalysisResult), or the error envelope with a string error field and
status "failed" (the failure constructor); no value mixes region metric
mappings with an error field (the constructors carry disjoint payloads). -/
theorem c1_output_shape (landmarks : List Landmark) (blendshapes : Option (List Blendshape))
    (index_map : Option IndexMap) :
    (∃ r : AnalysisResult,
        analyze_face_ratios landmarks blendshapes index_map = EngineOutput.result r) ∨
    (∃ msg tb,
        analyze_face_ratios landmarks blendshapes index_map =
          EngineOutput.failure msg tb "failed") :=
  Or.inl ⟨_, rfl⟩

/-- Claim C4: the scale basis equals the 2D outer-eye distance when that
exceeds 1e-8, otherwise the 2D cheek-to-cheek distance when that exceeds
1e-8, otherwise exactly 1 (scaleBasisSpec, written from the claim), and it
is strictly positive for every input, including degenerate ones. -/
theorem c4_scale_basis (m : IndexMap) (pts : List Pt3) :
    computeScaleBasis m pts = scaleBasisSpec m pts ∧ 0 < computeScaleBasis m pts := by
  have heps : eps = (1e-8 : ℝ) := rfl
  have hcheek : cheekFallback m pts =
      ((cheekToCheekDist m pts).filter fun w => w > (1e-8 : ℝ)).getD 1 := by
    unfold cheekFallback cheekToCheekDist
    rcases h3 : pts.get? (lookupD m "L_cheek" 205) with _ | c <;>
      rcases h4 : pts.get? (lookupD m "R_cheek" 425) with _ | d
    · rfl
    · rfl
    · rfl
    · simp only []
      rw [heps]
      by_cases hgt : (1e-8 : ℝ) < dist c d "2D"
      · rw [if_pos hgt]
        simp [Option.filter, hgt]
      · rw [if_neg hgt]
        simp [Option.filter, hgt]
  have hcheekpos : 0 < cheekFallback m pts := by
    unfold cheekFallback
    rcases h3 : pts.get? (lookupD m "L_cheek" 205) with _ | c <;>
      rcases h4 : pts.get? (lookupD m "R_cheek" 425) with _ | d
    · exact one_pos
    · exact one_pos
    · exact one_pos
    · simp only []
      by_cases hgt : eps < dist c d "2D"
      · rw [if_pos hgt]
        rw [heps] at hgt
        linarith [show (0:ℝ) < 1e-8 by norm_num]
      · rw [if_neg hgt]
        exact one_pos
  unfold computeScaleBasis scaleBasisSpec outerEyeDist
  rcases h1 : pts.get? (lookupD m "L_eye_outer" 33) with _ | a <;>
    rcases h2 : pts.get? (lookupD m "R_eye_outer" 263) with _ | b
  · exact ⟨by rw [hcheek]; simp [Option.orElse], hcheekpos⟩
  · exact ⟨by rw [hcheek]; simp [Option.orElse], hcheekpos⟩
  · exact ⟨by rw [hcheek]; simp [Option.orElse], hcheekpos⟩
  · simp only []
    rw [heps]
    by_cases hgt : (1e-8 : ℝ) < dist a b "2D"
    · refine ⟨?_, ?_⟩
      · rw [if_pos hgt]
        simp [Option.filter, Option.orElse, hgt]
      · rw [if_pos hgt]
        linarith [show (0:ℝ) < 1e-8 by norm_num]
    · refine ⟨?_, ?_⟩
      · rw [if_neg hgt, hcheek]
        simp [Option.filter, Option.orElse, hgt]
      · rw [if_neg hgt]
        exact hcheekpos

/-- Claim C7 (counterexample): for the empty landmark sequence the engine
does not return the error envelope — the claim asserts it does. -/
theorem c7_empty_input_no_envelope :
    ¬ ∃ msg tb, analyze_face_ratios [] none none = EngineOutput.failure msg tb "failed" := by
  rintro ⟨msg, tb, h⟩
  have h0 : analyze_face_ratios [] none none =
      EngineOutput.result ((mkFaceAnalyzer [] none none).analyze) := rfl
  rw [h0] at h
  exact EngineOutput.noConfusion h

/-- Claim C7 (amended): for the empty landmark sequence every index access
is guarded, so the engine returns a normal AnalysisResult whose region
mappings are all empty, with scale basis 1, not the error envelope. -/
theorem c7_empty_input_normal_result :
    analyze_face_ratios [] none none =
      EngineOutput.result
        { normalization :=
            { scale_basis := 1, fallback_indices_used := true, visibility_threshold := 0.3 }
          pose_estimation := { roll_deg := none, yaw_deg := none, pitch_deg := none }
          eyes := []
          nose := []
          mouth := []
          structure_metrics := []
          symmetry := { midline_symmetry_score := none, bilateral_feature_deltas := [] }
          profile := []
          golden_diagnostics :=
            { phi_deviations := [], thirds_evenness := none, fifths_evenness := none }
          blendshape_summary := none } := rfl

/-- Claim C9: normalization is independent of the confidence signals — two
landmark lists with identical coordinates but arbitrary visibility and
presence values yield the same corrected points and the same scale basis
(roll correction and scale derivation read the points only, never the
confidence array or its 0.3 threshold). -/
theorem c9_confidence_independence (ls1 ls2 : List Landmark)
    (b1 b2 : Option (List Blendshape)) (im : Option IndexMap)
    (h : ls1.map (fun lm => Pt3.mk lm.x lm.y lm.z) =
      ls2.map (fun lm => Pt3.mk lm.x lm.y lm.z)) :
    (mkFaceAnalyzer ls1 b1 im).points = (mkFaceAnalyzer ls2 b2 im).points ∧
    (mkFaceAnalyzer ls1 b1 im).scale_basis = (mkFaceAnalyzer ls2 b2 im).scale_basis := by
  unfold mkFaceAnalyzer
  simp only
  rw [h]
  exact ⟨rfl, rfl⟩

/-- Witness for C9 at a concrete input: same coordinates, visibility 0.1
with presence 0.1 against visibility 0.95 with absent presence. -/
theorem c9_confidence_independence_witness :
    ([Landmark.mk 0.1 0.2 0 (some 0.1) (some 0.1)].map (fun lm => Pt3.mk lm.x lm.y lm.z) =
      [Landmark.mk 0.1 0.2 0 (some 0.95) none].map (fun lm => Pt3.mk lm.x lm.y lm.z)) ∧
    ((mkFaceAnalyzer [Landmark.mk 0.1 0.2 0 (some 0.1) (some 0.1)] none none).points =
        (mkFaceAnalyzer [Landmark.mk 0.1 0.2 0 (some 0.95) none] none none).points ∧
      (mkFaceAnalyzer [Landmark.mk 0.1 0.2 0 (some 0.1) (some 0.1)] none none).scale_basis =
        (mkFaceAnalyzer [Landmark.mk 0.1 0.2 0 (some 0.95) none] none none).scale_basis) :=
  ⟨rfl, c9_confidence_independence _ _ none none none rfl⟩

/-- Claim C10: when every stored confidence value is 0.0 (after the
visibility-to-presence substitution), the per-point threshold is skipped
entirely: point lookup returns exactly the point of any name resolving to
an in-bounds index (and none for unresolved or out-of-range names). -/
theorem c10_zero_confidence_lookup (st : FaceAnalyzer)
    (h : ∀ v ∈ st.visibility, v = (0 : ℝ)) (name : String) :
    getPoint st name = (lookupIdx st.index_map name).bind fun idx => st.points.get? idx := by
  unfold getPoint
  rcases hl : lookupIdx st.index_map name with _ | idx
  · rfl
  · simp only []
    by_cases hb : idx < st.points.length
    · rw [if_pos hb, if_neg]
      · rfl
      · rintro ⟨hnz, _⟩
        exact hnz h
    · rw [if_neg hb]
      exact (List.get?_eq_none.mpr (le_of_not_lt hb)).symm

/-- Witness for C10 at a concrete all-zero-confidence state. -/
theorem c10_zero_confidence_lookup_witness :
    (∀ v ∈ ([0] : List ℝ), v = (0 : ℝ)) ∧
    getPoint ⟨[⟨0.2, 0.3, 0.1⟩], [0], [("nose_tip", 0)], false, 0.3, 1, []⟩ "nose_tip" =
      (lookupIdx [("nose_tip", 0)] "nose_tip").bind
        fun idx => ([⟨0.2, 0.3, 0.1⟩] : List Pt3).get? idx := by
  refine ⟨?_, ?_⟩
  · intro v hv
    simpa using hv
  · exact c10_zero_confidence_lookup ⟨[⟨0.2, 0.3, 0.1⟩], [0], [("nose_tip", 0)], false, 0.3, 1, []⟩
      (by intro v hv; simpa using hv) "nose_tip"

/-- arctan2 of a zero ordinate and a nonnegative abscissa is zero. -/
theorem atan2_zero_of_nonneg {x : ℝ} (hx : 0 ≤ x) : atan2 0 x = 0 := by
  unfold atan2
  have hmk : (⟨x, 0⟩ : ℂ) = (x : ℂ) := rfl
  rw [hmk]
  exact Complex.arg_ofReal_of_nonneg hx

/-- Rotating both endpoints of a segment by minus the segment's arctan2
angle zeroes the vertical separation and makes the horizontal separation
nonnegative. -/
theorem rollRotate_aligns (pl pr : Pt3) :
    (rollRotate (atan2 (pr.y - pl.y) (pr.x - pl.x)) pr).y -
      (rollRotate (atan2 (pr.y - pl.y) (pr.x - pl.x)) pl).y = 0 ∧
    0 ≤ (rollRotate (atan2 (pr.y - pl.y) (pr.x - pl.x)) pr).x -
      (rollRotate (atan2 (pr.y - pl.y) (pr.x - pl.x)) pl).x := by
  set dx := pr.x - pl.x with hdx
  set dy := pr.y - pl.y with hdy
  set th := atan2 dy dx with hth
  have hy : (rollRotate th pr).y - (rollRotate th pl).y =
      -Real.sin th * dx + Real.cos th * dy := by
    simp only [rollRotate, Real.sin_neg, Real.cos_neg, hdx, hdy]
    ring
  have hx : (rollRotate th pr).x - (rollRotate th pl).x =
      Real.cos th * dx + Real.sin th * dy := by
    simp only [rollRotate, Real.sin_neg, Real.cos_neg, hdx, hdy]
    ring
  by_cases hu : (⟨dx, dy⟩ : ℂ) = 0
  · have h1 : dx = 0 := congrArg Complex.re hu
    have h2 : dy = 0 := congrArg Complex.im hu
    rw [hy, hx, h1, h2]
    norm_num
  · have hth2 : th = Complex.arg ⟨dx, dy⟩ := hth
    have hrpos : 0 < Complex.abs ⟨dx, dy⟩ := Complex.abs.pos hu
    have hcos : Real.cos th = dx / Complex.abs ⟨dx, dy⟩ := by
      rw [hth2]
      exact Complex.cos_arg hu
    have hsin : Real.sin th = dy / Complex.abs ⟨dx, dy⟩ := by
      rw [hth2]
      exact Complex.sin_arg _
    constructor
    · rw [hy, hcos, hsin]
      ring
    · rw [hx, hcos, hsin]
      have heq : dx / Complex.abs ⟨dx, dy⟩ * dx + dy / Complex.abs ⟨dx, dy⟩ * dy =
          (dx ^ 2 + dy ^ 2) / Complex.abs ⟨dx, dy⟩ := by
        ring
      rw [heq]
      exact div_nonneg (by positivity) hrpos.le

/-- Claim C5: when both outer-eye points are available (and distinct),
after the roll correction the 2D angle of the outer-eye line is within
1e-3 degrees of zero, and the correction is an XY-plane rotation about
the origin leaving every point's z coordinate unchanged. -/
theorem c5_roll_correction (m : IndexMap) (pts : List Pt3) (pl pr : Pt3)
    (hl : pts.get? (lookupD m "L_eye_outer" 33) = some pl)
    (hr : pts.get? (lookupD m "R_eye_outer" 263) = some pr)
    (hd : pl ≠ pr) :
    (∃ ql qr, (applyRollCorrection m pts).get? (lookupD m "L_eye_outer" 33) = some ql ∧
       (applyRollCorrection m pts).get? (lookupD m "R_eye_outer" 263) = some qr ∧
       |npDegrees (atan2 (qr.y - ql.y) (qr.x - ql.x))| ≤ 1e-3) ∧
    (∀ i p, pts.get? i = some p →
       ∃ q, (applyRollCorrection m pts).get? i = some q ∧ q.z = p.z) := by
  have happ : applyRollCorrection m pts =
      pts.map (rollRotate (atan2 (pr.y - pl.y) (pr.x - pl.x))) := by
    unfold applyRollCorrection
    rw [hl, hr]
  constructor
  · refine ⟨rollRotate (atan2 (pr.y - pl.y) (pr.x - pl.x)) pl,
      rollRotate (atan2 (pr.y - pl.y) (pr.x - pl.x)) pr, ?_, ?_, ?_⟩
    · rw [happ, List.get?_map, hl]
      rfl
    · rw [happ, List.get?_map, hr]
      rfl
    · have halign := rollRotate_aligns pl pr
      rw [halign.1, atan2_zero_of_nonneg halign.2]
      simp only [npDegrees, zero_mul, abs_zero]
      norm_num
  · intro i p hp
    refine ⟨rollRotate (atan2 (pr.y - pl.y) (pr.x - pl.x)) p, ?_, rfl⟩
    rw [happ, List.get?_map, hp]
    rfl

/-- Witness for C5 at a concrete input: two distinct eye points already on
a horizontal line. -/
theorem c5_roll_correction_witness :
    (([⟨0, 0, 0⟩, ⟨1, 0, 0⟩] : List Pt3).get?
        (lookupD [("L_eye_outer", 0), ("R_eye_outer", 1)] "L_eye_outer" 33) =
      some ⟨0, 0, 0⟩) ∧
    (([⟨0, 0, 0⟩, ⟨1, 0, 0⟩] : List Pt3).get?
        (lookupD [("L_eye_outer", 0), ("R_eye_outer", 1)] "R_eye_outer" 263) =
      some ⟨1, 0, 0⟩) ∧
    (Pt3.mk 0 0 0 ≠ Pt3.mk 1 0 0) ∧
    ((∃ ql qr,
        (applyRollCorrection [("L_eye_outer", 0), ("R_eye_outer", 1)]
            [⟨0, 0, 0⟩, ⟨1, 0, 0⟩]).get?
          (lookupD [("L_eye_outer", 0), ("R_eye_outer", 1)] "L_eye_outer" 33) = some ql ∧
        (applyRollCorrection [("L_eye_outer", 0), ("R_eye_outer", 1)]
            [⟨0, 0, 0⟩, ⟨1, 0, 0⟩]).get?
          (lookupD [("L_eye_outer", 0), ("R_eye_outer", 1)] "R_eye_outer" 263) = some qr ∧
        |npDegrees (atan2 (qr.y - ql.y) (qr.x - ql.x))| ≤ 1e-3) ∧
      (∀ i p, ([⟨0, 0, 0⟩, ⟨1, 0, 0⟩] : List Pt3).get? i = some p →
        ∃ q, (applyRollCorrection [("L_eye_outer", 0), ("R_eye_outer", 1)]
            [⟨0, 0, 0⟩, ⟨1, 0, 0⟩]).get? i = some q ∧ q.z = p.z)) := by
  have hne : Pt3.mk 0 0 0 ≠ Pt3.mk 1 0 0 := by
    intro h
    have hx := congrArg Pt3.x h
    norm_num at hx
  exact ⟨rfl, rfl, hne, c5_roll_correction _ _ _ _ rfl rfl hne⟩

/-- Claim C3: if every landmark's visibility value is exactly 0.0, the
engine substitutes presence once for the whole analysis: the result equals
the result for the same input with each visibility replaced by the
corresponding presence value. -/
theorem c3_presence_substitution (landmarks : List Landmark)
    (blendshapes : Option (List Blendshape)) (index_map : Option IndexMap)
    (h : ∀ lm ∈ landmarks, lm.visibility.getD 1 = (0 : ℝ)) :
    analyze_face_ratios landmarks blendshapes index_map =
      analyze_face_ratios (landmarks.map substPresence) blendshapes index_map := by
  unfold analyze_face_ratios
  suffices hst : mkFaceAnalyzer landmarks blendshapes index_map =
      mkFaceAnalyzer (landmarks.map substPresence) blendshapes index_map by
    rw [hst]
  have hpts : (landmarks.map substPresence).map (fun lm => Pt3.mk lm.x lm.y lm.z) =
      landmarks.map (fun lm => Pt3.mk lm.x lm.y lm.z) := by
    rw [List.map_map]
    rfl
  have hvisvals : (landmarks.map substPresence).map (fun lm => lm.visibility.getD 1) =
      landmarks.map (fun lm => lm.presence.getD 1) := by
    rw [List.map_map]
    rfl
  have hpres : (landmarks.map substPresence).map (fun lm => lm.presence.getD 1) =
      landmarks.map (fun lm => lm.presence.getD 1) := by
    rw [List.map_map]
    rfl
  have hcond : ∀ v ∈ landmarks.map (fun lm => lm.visibility.getD 1), v = (0 : ℝ) := by
    intro v hv
    rcases List.mem_map.mp hv with ⟨lm, hlm, rfl⟩
    exact h lm hlm
  unfold mkFaceAnalyzer
  simp only
  rw [hpts, hvisvals, hpres, if_pos hcond, ite_self]

/-- Witness for C3 at a concrete input with visibility 0 and presence 0.9. -/
theorem c3_presence_substitution_witness :
    (∀ lm ∈ [Landmark.mk 0.5 0.5 0 (some 0) (some 0.9)], lm.visibility.getD 1 = (0 : ℝ)) ∧
    analyze_face_ratios [Landmark.mk 0.5 0.5 0 (some 0) (some 0.9)] none none =
      analyze_face_ratios ([Landmark.mk 0.5 0.5 0 (some 0) (some 0.9)].map substPresence)
        none none := by
  have h : ∀ lm ∈ [Landmark.mk 0.5 0.5 0 (some 0) (some 0.9)],
      lm.visibility.getD 1 = (0 : ℝ) := by
    intro lm hlm
    simp only [List.mem_singleton] at hlm
    subst hlm
    rfl
  exact ⟨h, c3_presence_substitution _ none none h⟩

/-- Helper: evaluate _get_point when the name resolves in range and passes
the threshold of a not-all-zero confidence array. -/
theorem getPoint_eval (st : FaceAnalyzer) (name : String) (idx : Nat)
    (h1 : lookupIdx st.index_map name = some idx)
    (h2 : idx < st.points.length)
    (h3 : ¬ st.visibility.getD idx 0 < st.visibility_threshold) :
    getPoint st name = st.points.get? idx := by
  unfold getPoint
  rw [h1]
  simp only []
  rw [if_pos h2, if_neg]
  rintro ⟨_, hlt⟩
  exact h3 hlt

/-- Helper: _get_point is none when the name does not resolve. -/
theorem getPoint_none_of_unresolved (st : FaceAnalyzer) (name : String)
    (h : lookupIdx st.index_map name = none) : getPoint st name = none := by
  unfold getPoint
  rw [h]

/-- Helper: safe_ratio with a zero denominator is none. -/
theorem safe_ratio_zero (w : ℝ) : safe_ratio w 0 = none := by
  unfold safe_ratio eps
  norm_num

/-- A concrete engine input on which the inner-eye points coincide: a
custom four-entry index map and four fully-confident landmarks. -/
def c2map : IndexMap := [("alare_L", 0), ("alare_R", 1), ("L_eye_inner", 2), ("R_eye_inner", 3)]

/-- The landmarks of the C2 failing input (inner-eye entries coincide). -/
def c2lms : List Landmark :=
  [⟨0.3, 0.5, 0, some 1, some 1⟩, ⟨0.7, 0.5, 0, some 1, some 1⟩,
   ⟨0.5, 0.4, 0, some 1, some 1⟩, ⟨0.5, 0.4, 0, some 1, some 1⟩]

/-- The analyzer state of the C2 failing input (roll correction and scale
derivation fall through because the outer-eye and cheek names resolve to
the out-of-range default indices). -/
def c2st : FaceAnalyzer :=
  ⟨[⟨0.3, 0.5, 0⟩, ⟨0.7, 0.5, 0⟩, ⟨0.5, 0.4, 0⟩, ⟨0.5, 0.4, 0⟩],
   [1, 1, 1, 1], c2map, false, 0.3, 1, []⟩

/-- The C2 failing input produces exactly the state c2st. -/
theorem c2_mk : mkFaceAnalyzer c2lms none (some c2map) = c2st := by
  unfold mkFaceAnalyzer c2st c2lms c2map
  have hvis : ¬ ∀ v ∈ ([(1:ℝ), 1, 1, 1]), v = (0:ℝ) := by
    intro hall
    have h1 := hall 1 (by simp)
    norm_num at h1
  simp only [List.map_cons, List.map_nil, Option.getD_some, Option.isNone]
  rw [if_neg hvis]
  rfl

/-- On the C2 failing input the nose analyzer emits the alar ratio key
with a None value (the safe_ratio result is passed to create_metric with
no None guard at this one site). -/
theorem c2_nose : analyzeNose c2st =
    [("alar_width_over_inter_eye",
      create_metric none "2D" ["alare_L", "alare_R", "L_eye_inner", "R_eye_inner"] true 1)] := by
  have g1 : getPoint c2st "alare_L" = some ⟨0.3, 0.5, 0⟩ := by
    rw [getPoint_eval c2st "alare_L" 0 rfl (by norm_num [c2st]) (by norm_num [c2st, List.getD])]
    rfl
  have g2 : getPoint c2st "alare_R" = some ⟨0.7, 0.5, 0⟩ := by
    rw [getPoint_eval c2st "alare_R" 1 rfl (by norm_num [c2st]) (by norm_num [c2st, List.getD])]
    rfl
  have g3 : getPoint c2st "L_eye_inner" = some ⟨0.5, 0.4, 0⟩ := by
    rw [getPoint_eval c2st "L_eye_inner" 2 rfl (by norm_num [c2st]) (by norm_num [c2st, List.getD])]
    rfl
  have g4 : getPoint c2st "R_eye_inner" = some ⟨0.5, 0.4, 0⟩ := by
    rw [getPoint_eval c2st "R_eye_inner" 3 rfl (by norm_num [c2st]) (by norm_num [c2st, List.getD])]
    rfl
  have gn1 : getPoint c2st "nasion" = none := getPoint_none_of_unresolved _ _ rfl
  have gn3 : getPoint c2st "nose_tip" = none := getPoint_none_of_unresolved _ _ rfl
  have hdz : dist (⟨0.5, 0.4, 0⟩ : Pt3) ⟨0.5, 0.4, 0⟩ "2D" = 0 := by
    unfold dist
    norm_num
  unfold analyzeNose alarBlock nasalLengthBlock tipProjectionBlock nasolabialBlock
  rw [g1, g2, g3, g4, gn1, gn3]
  simp only []
  rw [hdz, safe_ratio_zero]
  rfl

/-- Claim C2 (code-bug evidence): on a legal engine input whose inner-eye
landmarks coincide (inter-eye distance 0 < 1e-8), the result's nose
mapping carries the key alar_width_over_inter_eye with a None value — the
key is not omitted, contradicting the claim's omission contract; every
other ratio site guards the safe_ratio result, so this site is the slip. -/
theorem c2_null_metric_emitted :
    ∃ r, analyze_face_ratios c2lms none (some c2map) = EngineOutput.result r ∧
      mlookup r.nose "alar_width_over_inter_eye" =
        some (create_metric none "2D" ["alare_L", "alare_R", "L_eye_inner", "R_eye_inner"] true 1) := by
  refine ⟨(mkFaceAnalyzer c2lms none (some c2map)).analyze, rfl, ?_⟩
  rw [c2_mk]
  show mlookup (FaceAnalyzer.analyze c2st).nose "alar_width_over_inter_eye" = _
  unfold FaceAnalyzer.analyze
  simp only []
  rw [c2_nose]
  rfl

/-- The C8 failing input: a custom two-entry index map; the left outer
canthus (index 0) is higher on the face — smaller y in the y-down image
coordinates — than the left inner canthus (index 1). -/
def c8map : IndexMap := [("L_eye_outer", 0), ("L_eye_inner", 1)]

/-- The landmarks of the C8 failing input. -/
def c8lms : List Landmark :=
  [⟨0.3, 0.4, 0, some 1, some 1⟩, ⟨0.4, 0.5, 0, some 1, some 1⟩]

/-- The analyzer state of the C8 failing input: the roll correction falls
through (the right-outer-eye default index 263 is out of range), so the
points are unrotated and the scale basis is 1. -/
def c8st : FaceAnalyzer :=
  ⟨[⟨0.3, 0.4, 0⟩, ⟨0.4, 0.5, 0⟩], [1, 1], c8map, false, 0.3, 1, []⟩

/-- The C8 failing input produces exactly the state c8st. -/
theorem c8_mk : mkFaceAnalyzer c8lms none (some c8map) = c8st := by
  unfold mkFaceAnalyzer c8st c8lms c8map
  have hvis : ¬ ∀ v ∈ ([(1:ℝ), 1]), v = (0:ℝ) := by
    intro hall
    have h1 := hall 1 (by simp)
    norm_num at h1
  simp only [List.map_cons, List.map_nil, Option.getD_some, Option.isNone]
  rw [if_neg hvis]
  rfl

/-- Claim C8 (code-bug evidence): with the outer canthus higher than the
inner one (outer.y = 0.4 < 0.5 = inner.y, y growing downward), the emitted
canthal tilt is negative — the code computes degrees(arctan2(outer.y -
inner.y, |dx|)), which is positive exactly when the outer corner is LOWER,
contradicting the claim's sign convention and the source's own comment
(positive = upward slant). -/
theorem c8_tilt_sign_flipped :
    ∃ r v, analyze_face_ratios c8lms none (some c8map) = EngineOutput.result r ∧
      mlookup r.eyes "canthal_tilt_deg_L" =
        some (create_metric (some v) "2D" ["L_eye_outer", "L_eye_inner"] true 1) ∧
      v < 0 := by
  refine ⟨(mkFaceAnalyzer c8lms none (some c8map)).analyze,
    npDegrees (atan2 ((0.4 : ℝ) - 0.5) |(0.3 : ℝ) - 0.4|), rfl, ?_, ?_⟩
  · rw [c8_mk]
    show mlookup (FaceAnalyzer.analyze c8st).eyes "canthal_tilt_deg_L" = _
    unfold FaceAnalyzer.analyze
    simp only []
    have gLo : getPoint c8st ("L" ++ "_eye_outer") = some ⟨0.3, 0.4, 0⟩ := by
      rw [getPoint_eval c8st ("L" ++ "_eye_outer") 0 rfl (by norm_num [c8st])
        (by norm_num [c8st, List.getD])]
      rfl
    have gLi : getPoint c8st ("L" ++ "_eye_inner") = some ⟨0.4, 0.5, 0⟩ := by
      rw [getPoint_eval c8st ("L" ++ "_eye_inner") 1 rfl (by norm_num [c8st])
        (by norm_num [c8st, List.getD])]
      rfl
    have gLi2 : getPoint c8st "L_eye_inner" = some ⟨0.4, 0.5, 0⟩ := by
      rw [getPoint_eval c8st "L_eye_inner" 1 rfl (by norm_num [c8st])
        (by norm_num [c8st, List.getD])]
      rfl
    have gRo : getPoint c8st ("R" ++ "_eye_outer") = none :=
      getPoint_none_of_unresolved _ _ rfl
    have gRi : getPoint c8st "R_eye_inner" = none :=
      getPoint_none_of_unresolved _ _ rfl
    have gLbi : getPoint c8st ("L" ++ "_brow_inner") = none :=
      getPoint_none_of_unresolved _ _ rfl
    have gRbi : getPoint c8st ("R" ++ "_brow_inner") = none :=
      getPoint_none_of_unresolved _ _ rfl
    unfold analyzeEyes eyeSideMetrics intercanthalMetric browSideMetrics
    rw [gLo, gLi, gRo, gLi2, gRi, gLbi, gRbi]
    rfl
  · have hneg : atan2 ((0.4 : ℝ) - 0.5) |(0.3 : ℝ) - 0.4| < 0 := by
      unfold atan2
      refine Complex.arg_neg_iff.mpr ?_
      show (0.4 : ℝ) - 0.5 < 0
      norm_num
    unfold npDegrees
    exact mul_neg_of_neg_of_pos hneg (by positivity)

/-- Helper: lookup distributes over append of metric mappings. -/
theorem mlookup_append (l1 l2 : Metrics) (k : String) :
    mlookup (l1 ++ l2) k = (mlookup l1 k).orElse fun _ => mlookup l2 k := by
  unfold mlookup
  induction l1 with
  | nil => rfl
  | cons p t ih =>
    rcases p with ⟨k1, v1⟩
    rw [List.cons_append]
    simp only [List.lookup]
    rcases hbe : k == k1 with _ | _
    · simpa using ih
    · rfl

/-- Helper: the face height block never carries a thirds key. -/
theorem lookup_faceHW_none (st : FaceAnalyzer) (k : String)
    (h1 : (k == "face_height_over_width") = false) :
    mlookup (faceHWBlock st) k = none := by
  unfold mlookup faceHWBlock
  split
  · split
    · split
      · simp only [List.lookup, h1]
      · rfl
    · rfl
  · rfl

/-- Helper: the jaw block never carries a thirds key. -/
theorem lookup_jaw_none (st : FaceAnalyzer) (k : String)
    (h1 : (k == "gonial_width_normalized") = false)
    (h2 : (k == "mandibular_angle_deg") = false) :
    mlookup (jawBlock st) k = none := by
  unfold mlookup jawBlock
  split
  · split
    · simp only [List.singleton_append, List.lookup, h1, h2]
    · simp only [List.append_nil, List.lookup, h1]
  · rfl

/-- Helper: the chin block never carries a thirds key. -/
theorem lookup_chin_none (st : FaceAnalyzer) (k : String)
    (h1 : (k == "chin_prominence_3D") = false) :
    mlookup (chinBlock st) k = none := by
  unfold mlookup chinBlock
  split
  · simp only [List.lookup, h1]
  · rfl

/-- Helper: safe_ratio on a denominator above the threshold is the plain
quotient. -/
theorem safe_ratio_of_gt_eps (n d : ℝ) (h : eps < d) : safe_ratio n d = some (n / d) := by
  have hd : (0 : ℝ) < d := lt_trans (by norm_num [eps]) h
  unfold safe_ratio
  rw [if_neg]
  rw [abs_of_pos hd]
  exact not_lt.mpr h.le

/-- Helper: np.std of a two-element list is the standard deviation of the
pair. -/
theorem npStd_pair (a b : ℝ) : npStd [a, b] = stddev2 a b := by
  unfold npStd npMean stddev2
  congr 1
  simp

/-- Claim C6: golden_diagnostics carries a thirds_evenness entry exactly
when both upper_to_middle_third and lower_to_middle_third exist in the
structure output of the same pass (the structure analyzer inserts both or
neither), and its value is then 1 minus the standard deviation of the two
ratios. -/
theorem c6_thirds_evenness (st : FaceAnalyzer) :
    ((analyzeGoldenDiagnostics st (analyzeStructure st)).thirds_evenness ≠ none ↔
      (mlookup (analyzeStructure st) "upper_to_middle_third" ≠ none ∧
       mlookup (analyzeStructure st) "lower_to_middle_third" ≠ none)) ∧
    (∀ m1 m2 r1 r2,
      mlookup (analyzeStructure st) "upper_to_middle_third" = some m1 → m1.value = some r1 →
      mlookup (analyzeStructure st) "lower_to_middle_third" = some m2 → m2.value = some r2 →
      ∃ mg, (analyzeGoldenDiagnostics st (analyzeStructure st)).thirds_evenness = some mg ∧
        mg.value = some (1 - stddev2 r1 r2)) := by
  have hup : mlookup (analyzeStructure st) "upper_to_middle_third" =
      mlookup (thirdsBlock st) "upper_to_middle_third" := by
    unfold analyzeStructure
    rw [mlookup_append, mlookup_append, mlookup_append]
    rcases h : mlookup (thirdsBlock st) "upper_to_middle_third" with _ | v
    · simp [Option.orElse, lookup_faceHW_none st "upper_to_middle_third" rfl,
        lookup_jaw_none st "upper_to_middle_third" rfl rfl,
        lookup_chin_none st "upper_to_middle_third" rfl]
    · simp [Option.orElse]
  have hlow : mlookup (analyzeStructure st) "lower_to_middle_third" =
      mlookup (thirdsBlock st) "lower_to_middle_third" := by
    unfold analyzeStructure
    rw [mlookup_append, mlookup_append, mlookup_append]
    rcases h : mlookup (thirdsBlock st) "lower_to_middle_third" with _ | v
    · simp [Option.orElse, lookup_faceHW_none st "lower_to_middle_third" rfl,
        lookup_jaw_none st "lower_to_middle_third" rfl rfl,
        lookup_chin_none st "lower_to_middle_third" rfl]
    · simp [Option.orElse]
  have hthr : thirdsRatios (analyzeStructure st) =
      ((mlookup (thirdsBlock st) "upper_to_middle_third").map MetricValue.value).toList ++
      ((mlookup (thirdsBlock st) "lower_to_middle_third").map MetricValue.value).toList := by
    unfold thirdsRatios
    rw [hup, hlow]
  have hTcases : thirdsBlock st = [] ∨ ∃ a b : ℝ,
      mlookup (thirdsBlock st) "upper_to_middle_third" =
        some (create_metric (some a) "2D" ["glabella", "nasion", "subnasale"] true 1) ∧
      mlookup (thirdsBlock st) "lower_to_middle_third" =
        some (create_metric (some b) "2D" ["subnasale", "chin_tip", "nasion"] true 1) := by
    unfold thirdsBlock
    split
    · unfold_let
      split
      · rename_i hmid
        rw [safe_ratio_of_gt_eps _ _ hmid, safe_ratio_of_gt_eps _ _ hmid]
        exact Or.inr ⟨_, _, rfl, rfl⟩
      · exact Or.inl rfl
    · exact Or.inl rfl
  rcases hTcases with hnil | ⟨a, b, hu, hl2⟩
  · have hupn : mlookup (analyzeStructure st) "upper_to_middle_third" = none := by
      rw [hup, hnil]
      rfl
    have hthrn : thirdsRatios (analyzeStructure st) = [] := by
      rw [hthr, hnil]
      rfl
    have hev : (analyzeGoldenDiagnostics st (analyzeStructure st)).thirds_evenness = none := by
      unfold analyzeGoldenDiagnostics
      simp only []
      rw [hthrn]
    constructor
    · rw [hev, hupn]
      simp
    · intro m1 m2 r1 r2 h1 hv1 h2 hv2
      rw [hupn] at h1
      exact Option.noConfusion h1
  · have hthr2 : thirdsRatios (analyzeStructure st) = [some a, some b] := by
      rw [hthr, hu, hl2]
      rfl
    have hev : (analyzeGoldenDiagnostics st (analyzeStructure st)).thirds_evenness =
        some (create_metric (some (1 - npStd [a, b])) "2D" [] true 0.7) := by
      unfold analyzeGoldenDiagnostics
      simp only []
      rw [hthr2]
      rfl
    constructor
    · rw [hev, hup, hlow, hu, hl2]
      simp
    · intro m1 m2 r1 r2 h1 hv1 h2 hv2
      rw [hup, hu] at h1
      rw [hlow, hl2] at h2
      have hm1 : m1 = create_metric (some a) "2D" ["glabella", "nasion", "subnasale"] true 1 :=
        (Option.some.injEq _ _ ▸ h1).symm
      have hm2 : m2 = create_metric (some b) "2D" ["subnasale", "chin_tip", "nasion"] true 1 :=
        (Option.some.injEq _ _ ▸ h2).symm
      have ha : a = r1 := by
        have := hv1
        rw [hm1] at this
        exact Option.some.inj this
      have hb : b = r2 := by
        have := hv2
        rw [hm2] at this
        exact Option.some.inj this
      refine ⟨create_metric (some (1 - npStd [a, b])) "2D" [] true 0.7, hev, ?_⟩
      show some (1 - npStd [a, b]) = some (1 - stddev2 r1 r2)
      rw [npStd_pair, ha, hb]

/-- A concrete index map for the C6 witness. -/
def c6map : IndexMap :=
  [("L_brow_inner", 0), ("R_brow_inner", 1), ("nasion", 2), ("subnasale", 3), ("chin_tip", 4)]

/-- A concrete analyzer state whose facial thirds are all 0.1 long. -/
def c6st : FaceAnalyzer :=
  ⟨[⟨0.4, 0.2, 0⟩, ⟨0.6, 0.2, 0⟩, ⟨0.5, 0.3, 0⟩, ⟨0.5, 0.4, 0⟩, ⟨0.5, 0.5, 0⟩],
   [1, 1, 1, 1, 1], c6map, false, 0.3, 1, []⟩

/-- Witness for C6: at the state c6st both thirds ratios exist with value
1, and thirds_evenness is present with value 1 - stddev(1, 1). -/
theorem c6_thirds_evenness_witness :
    mlookup (analyzeStructure c6st) "upper_to_middle_third" =
      some (create_metric (some 1) "2D" ["glabella", "nasion", "subnasale"] true 1) ∧
    (create_metric (some 1) "2D" ["glabella", "nasion", "subnasale"] true 1).value = some 1 ∧
    mlookup (analyzeStructure c6st) "lower_to_middle_third" =
      some (create_metric (some 1) "2D" ["subnasale", "chin_tip", "nasion"] true 1) ∧
    (create_metric (some 1) "2D" ["subnasale", "chin_tip", "nasion"] true 1).value = some 1 ∧
    ∃ mg, (analyzeGoldenDiagnostics c6st (analyzeStructure c6st)).thirds_evenness = some mg ∧
      mg.value = some (1 - stddev2 1 1) := by
  have g0 : getPoint c6st "L_brow_inner" = some ⟨0.4, 0.2, 0⟩ := by
    rw [getPoint_eval c6st "L_brow_inner" 0 rfl (by norm_num [c6st])
      (by norm_num [c6st, List.getD])]
    rfl
  have g1 : getPoint c6st "R_brow_inner" = some ⟨0.6, 0.2, 0⟩ := by
    rw [getPoint_eval c6st "R_brow_inner" 1 rfl (by norm_num [c6st])
      (by norm_num [c6st, List.getD])]
    rfl
  have g2 : getPoint c6st "nasion" = some ⟨0.5, 0.3, 0⟩ := by
    rw [getPoint_eval c6st "nasion" 2 rfl (by norm_num [c6st])
      (by norm_num [c6st, List.getD])]
    rfl
  have g3 : getPoint c6st "subnasale" = some ⟨0.5, 0.4, 0⟩ := by
    rw [getPoint_eval c6st "subnasale" 3 rfl (by norm_num [c6st])
      (by norm_num [c6st, List.getD])]
    rfl
  have g4 : getPoint c6st "chin_tip" = some ⟨0.5, 0.5, 0⟩ := by
    rw [getPoint_eval c6st "chin_tip" 4 rfl (by norm_num [c6st])
      (by norm_num [c6st, List.getD])]
    rfl
  have hglab : computeGlabella c6st =
      some ⟨(0.4 + 0.6) / 2, (0.2 + 0.2) / 2, (0 + 0) / 2⟩ := by
    unfold computeGlabella
    rw [g0, g1]
  have hd1 : dist (⟨(0.4 + 0.6) / 2, (0.2 + 0.2) / 2, (0 + 0) / 2⟩ : Pt3) ⟨0.5, 0.3, 0⟩
      "2D" = 0.1 := by
    unfold dist
    rw [if_pos rfl]
    rw [show ((⟨(0.4 + 0.6) / 2, (0.2 + 0.2) / 2, (0 + 0) / 2⟩ : Pt3).x -
          (⟨0.5, 0.3, 0⟩ : Pt3).x) ^ 2 +
        ((⟨(0.4 + 0.6) / 2, (0.2 + 0.2) / 2, (0 + 0) / 2⟩ : Pt3).y -
          (⟨0.5, 0.3, 0⟩ : Pt3).y) ^ 2 = ((0.1 : ℝ)) ^ 2 from by norm_num]
    exact Real.sqrt_sq (by norm_num)
  have hd2 : dist (⟨0.5, 0.3, 0⟩ : Pt3) ⟨0.5, 0.4, 0⟩ "2D" = 0.1 := by
    unfold dist
    rw [if_pos rfl]
    rw [show ((⟨0.5, 0.3, 0⟩ : Pt3).x - (⟨0.5, 0.4, 0⟩ : Pt3).x) ^ 2 +
        ((⟨0.5, 0.3, 0⟩ : Pt3).y - (⟨0.5, 0.4, 0⟩ : Pt3).y) ^ 2 = ((0.1 : ℝ)) ^ 2 from by
      norm_num]
    exact Real.sqrt_sq (by norm_num)
  have hd3 : dist (⟨0.5, 0.4, 0⟩ : Pt3) ⟨0.5, 0.5, 0⟩ "2D" = 0.1 := by
    unfold dist
    rw [if_pos rfl]
    rw [show ((⟨0.5, 0.4, 0⟩ : Pt3).x - (⟨0.5, 0.5, 0⟩ : Pt3).x) ^ 2 +
        ((⟨0.5, 0.4, 0⟩ : Pt3).y - (⟨0.5, 0.5, 0⟩ : Pt3).y) ^ 2 = ((0.1 : ℝ)) ^ 2 from by
      norm_num]
    exact Real.sqrt_sq (by norm_num)
  have hsr : safe_ratio 0.1 0.1 = some 1 := by
    rw [safe_ratio_of_gt_eps 0.1 0.1 (by norm_num [eps])]
    norm_num
  have hT : thirdsBlock c6st =
      [("upper_to_middle_third",
        create_metric (some 1) "2D" ["glabella", "nasion", "subnasale"] true 1),
       ("lower_to_middle_third",
        create_metric (some 1) "2D" ["subnasale", "chin_tip", "nasion"] true 1)] := by
    unfold thirdsBlock
    rw [hglab, g3, g4]
    simp only []
    rw [g2]
    simp only []
    rw [hd1, hd2, hd3, if_pos (show (0.1 : ℝ) > eps by norm_num [eps]), hsr]
  have hup6 : mlookup (analyzeStructure c6st) "upper_to_middle_third" =
      some (create_metric (some 1) "2D" ["glabella", "nasion", "subnasale"] true 1) := by
    unfold analyzeStructure
    rw [mlookup_append, mlookup_append, mlookup_append, hT]
    rfl
  have hlow6 : mlookup (analyzeStructure c6st) "lower_to_middle_third" =
      some (create_metric (some 1) "2D" ["subnasale", "chin_tip", "nasion"] true 1) := by
    unfold analyzeStructure
    rw [mlookup_append, mlookup_append, mlookup_append, hT]
    rfl
  exact ⟨hup6, rfl, hlow6, rfl, (c6_thirds_evenness c6st).2 _ _ 1 1 hup6 rfl hlow6 rfl⟩

end Golden

end
